import Mathlib

namespace DTN

/-! ## Definitions: shallow embedding of mqtt_client.py -/

/-- ConnectionState enum (mqtt_client.py, class ConnectionState). -/
inductive ConnectionState where
  | DISCONNECTED
  | CONNECTING
  | CONNECTED
  | RECONNECTING
  | ERROR
deriving DecidableEq

/-- MQTTConfig dataclass (mqtt_client.py).  float durations are modelled as
Nat ticks; TLS file paths and transport mode are kept as inert data. -/
structure MQTTConfig where
  broker_host : String := "localhost"
  broker_port : Nat := 1883
  client_id : String := ""
  username : Option String := none
  password : Option String := none
  keepalive : Nat := 60
  clean_session : Bool := true
  use_tls : Bool := false
  auto_reconnect : Bool := true
  reconnect_delay : Nat := 5
  max_reconnect_delay : Nat := 120
  queue_size : Nat := 1000
  message_timeout : Nat := 30
deriving DecidableEq

/-- Subscription dataclass.  A Python callback object is identified by a
numeric id; `none` models callback=None. -/
structure Subscription where
  topic : String
  qos : Nat
  callback : Option Nat := none
deriving DecidableEq

/-- QueuedMessage dataclass; `timestamp` is the enqueue time (time.time()
modelled as Nat). -/
structure QueuedMessage where
  topic : String
  payload : String
  qos : Nat
  retain : Bool
  timestamp : Nat
deriving DecidableEq

/-- The stats dictionary initialised in MQTTClientWrapper.__init__. -/
structure Stats where
  messages_sent : Nat := 0
  messages_received : Nat := 0
  messages_queued : Nat := 0
  reconnect_count : Nat := 0
  errors : Nat := 0
deriving DecidableEq

/-- State of an MQTTClientWrapper instance, plus observable traces.
`subscriptions` embeds the Python dict as an insertion-ordered association
list (Python dicts preserve insertion order); `wildcard_callbacks` is the
list of (pattern, callback) pairs; `message_queue` is the offline publish
queue (front = oldest).  `wire`, `subscribe_wire`, `invoked` and `log`
record the externally visible effects: packets handed to client.publish,
subscribe requests handed to client.subscribe, callback invocations, and
logger lines. -/
structure Client where
  config : MQTTConfig
  state : ConnectionState := .DISCONNECTED
  connected : Bool := false
  subscriptions : List (String × Subscription) := []
  wildcard_callbacks : List (String × Option Nat) := []
  message_queue : List QueuedMessage := []
  queue_running : Bool := false
  stats : Stats := {}
  wire : List (String × String × Nat × Bool) := []
  subscribe_wire : List (String × Nat) := []
  invoked : List Nat := []
  log : List String := []
deriving DecidableEq

/-- Python str.split('/') on the character sequence of a string: every
occurrence of '/' separates levels and empty levels are kept, so the empty
string yields [""].  (String.splitOn has the same behaviour but is not
kernel-reducible, so the split is embedded structurally.) -/
def splitOnSlashAux : List Char → List Char → List String
  | [], acc => [String.mk acc.reverse]
  | c :: cs, acc =>
    if c = '/' then String.mk acc.reverse :: splitOnSlashAux cs []
    else splitOnSlashAux cs (c :: acc)

/-- topic.split('/') from _topic_matches. -/
def splitLevels (s : String) : List String := splitOnSlashAux s.toList []

/-- The for-loop of _topic_matches.  The Python loop walks pattern_parts
with index i, returning True at a `#` level, False when the topic is
exhausted (i >= len(topic_parts)) or a literal level mismatches, and after
the loop returns len(topic_parts) == len(pattern_parts); since each
non-`#` iteration consumes exactly one level of each list, that final
length test is the emptiness of the remaining topic levels. -/
def matchLoop : List String → List String → Bool
  | [], topic_parts => topic_parts.isEmpty
  | pattern_part :: ps, topic_parts =>
    if pattern_part = "#" then
      true
    else
      match topic_parts with
      | [] => false
      | t :: ts =>
        if pattern_part ≠ "+" ∧ pattern_part ≠ t then false
        else matchLoop ps ts

/-- _topic_matches(topic, pattern): split both on "/", reject a `#` in a
non-final position (the Python test is membership of "#" in
pattern_parts[:-1]), then run the level loop. -/
def topic_matches (topic pattern : String) : Bool :=
  let topic_parts := splitLevels topic
  let pattern_parts := splitLevels pattern
  if "#" ∈ pattern_parts.dropLast then false
  else matchLoop pattern_parts topic_parts

/-- Level-by-level wildcard semantics as the spec states them: a literal
pattern level must equal the topic level, `+` matches exactly one topic
level, a final `#` matches all remaining levels including zero, a
non-final `#` matches nothing, and otherwise topic and pattern must be
exhausted together. -/
def matchesSpec : List String → List String → Bool
  | topic_parts, [] => topic_parts.isEmpty
  | topic_parts, p :: ps =>
    if p = "#" then ps.isEmpty
    else
      match topic_parts with
      | [] => false
      | t :: ts => if p = "+" ∨ p = t then matchesSpec ts ps else false

/-- _queue_message (lines 421-437): builds a QueuedMessage stamped with the
current time and put_nowait's it.  queue.Queue(maxsize=queue_size) rejects
the put when queue_size > 0 and the queue already holds queue_size entries
(Python treats maxsize <= 0 as unbounded); queue.Full lands in the except
clause, which only logs — the caller is not told and no statistic changes.
On success messages_queued is incremented. -/
def queue_message (c : Client) (topic payload : String) (qos : Nat)
    (retain : Bool) (now : Nat) : Client :=
  if c.config.queue_size = 0 ∨ c.message_queue.length < c.config.queue_size then
    { c with
      message_queue := c.message_queue ++ [⟨topic, payload, qos, retain, now⟩],
      stats := { c.stats with messages_queued := c.stats.messages_queued + 1 },
      log := c.log ++ ["Message queued: " ++ topic] }
  else
    { c with log := c.log ++ ["Failed to queue message"] }

/-- publish (lines 376-419).  The payload serialisation (json.dumps / str)
happens before any branching, so the payload is taken as the already
converted string.  sendOk is the oracle for result.rc == MQTT_ERR_SUCCESS
of client.publish; a successful send is recorded on the wire trace. -/
def publish (c : Client) (topic payload : String) (qos : Nat)
    (retain : Bool) (now : Nat) (sendOk : Bool) : Client × Bool :=
  if c.connected then
    if sendOk then
      ({ c with
          wire := c.wire ++ [(topic, payload, qos, retain)],
          stats := { c.stats with messages_sent := c.stats.messages_sent + 1 } },
        true)
    else
      (queue_message { c with log := c.log ++ ["Publish failed"] }
        topic payload qos retain now, false)
  else
    (queue_message { c with log := c.log ++ ["Not connected, queueing message"] }
      topic payload qos retain now, false)

/-- One iteration of the _process_queue worker body (lines 549-590) in the
case where the queue is nonempty (a queue.Empty timeout just loops).  now
is the time.time() read for the age check; sendOk is the rc of
client.publish.  A message whose age strictly exceeds message_timeout is
dropped with only a log line; on a send failure, or when not connected,
the message is re-inserted with Queue.put, i.e. at the BACK of the
queue. -/
def process_iteration (c : Client) (now : Nat) (sendOk : Bool) : Client :=
  match c.message_queue with
  | [] => c
  | message :: rest =>
    if now - message.timestamp > c.config.message_timeout then
      { c with message_queue := rest, log := c.log ++ ["Dropping old message"] }
    else if c.connected then
      if sendOk then
        { c with
          message_queue := rest,
          wire := c.wire ++
            [(message.topic, message.payload, message.qos, message.retain)],
          stats := { c.stats with messages_sent := c.stats.messages_sent + 1 } }
      else
        { c with message_queue := rest ++ [message] }
    else
      { c with message_queue := rest ++ [message] }

/-- The worker loop of _process_queue, driven by one (now, sendOk)
observation per iteration. -/
def process_run (c : Client) : List (Nat × Bool) → Client
  | [] => c
  | (now, ok) :: evs => process_run (process_iteration c now ok) evs

/-- _start_queue_processor (lines 531-540). -/
def start_queue_processor (c : Client) : Client :=
  { c with queue_running := true }

/-- _stop_queue_processor (lines 542-547): clears queue_running and joins
the worker thread with a bounded timeout. -/
def stop_queue_processor (c : Client) : Client :=
  { c with queue_running := false }

/-- disconnect (lines 234-253): inside a try/except, stop the queue
worker, stop the paho network loop and disconnect the transport, then
clear connected and state under the lock.  transportRaises is the oracle
for loop_stop()/client.disconnect() raising: the except clause only logs,
so on an exception the connected/state update is skipped. -/
def disconnect (c : Client) (transportRaises : Bool) : Client :=
  let c1 := stop_queue_processor c
  if transportRaises then
    { c1 with log := c1.log ++ ["Disconnect error"] }
  else
    { c1 with connected := false, state := .DISCONNECTED,
              log := c1.log ++ ["Disconnected successfully"] }

/-- The dict assignment self.subscriptions[topic] = subscription on the
insertion-ordered dict: replaces the value in place when the key exists,
otherwise appends at the end. -/
def dictInsert (subs : List (String × Subscription)) (topic : String)
    (sub : Subscription) : List (String × Subscription) :=
  if subs.any (fun ts => ts.1 == topic) then
    subs.map (fun ts => if ts.1 == topic then (topic, sub) else ts)
  else subs ++ [(topic, sub)]

/-- The wildcard test of subscribe, Python "'+' in topic or '#' in topic"
(single-character containment). -/
def isWildcard (topic : String) : Bool :=
  topic.toList.contains '+' || topic.toList.contains '#'

/-- subscribe (lines 443-484): stores the subscription (wildcard patterns
go to the ordered wildcard list, exact topics to the dict), then issues
client.subscribe only when connected; transportOk is its rc.  While
disconnected the call returns True. -/
def subscribe (c : Client) (topic : String) (qos : Nat)
    (callback : Option Nat) (transportOk : Bool) : Client × Bool :=
  let c1 :=
    if isWildcard topic then
      { c with wildcard_callbacks := c.wildcard_callbacks ++ [(topic, callback)] }
    else
      { c with subscriptions := dictInsert c.subscriptions topic ⟨topic, qos, callback⟩ }
  if c1.connected then
    if transportOk then
      ({ c1 with subscribe_wire := c1.subscribe_wire ++ [(topic, qos)] }, true)
    else (c1, false)
  else (c1, true)

/-- unsubscribe (lines 486-513): deletes the exact entry if present,
filters out every wildcard entry whose pattern equals the topic, then
talks to the transport only when connected; while disconnected it returns
True unconditionally. -/
def unsubscribe (c : Client) (topic : String) (transportOk : Bool) :
    Client × Bool :=
  let c1 := { c with
    subscriptions := c.subscriptions.filter (fun ts => !(ts.1 == topic)),
    wildcard_callbacks := c.wildcard_callbacks.filter (fun tc => !(tc.1 == topic)) }
  if c1.connected then
    if transportOk then (c1, true) else (c1, false)
  else (c1, true)

/-- _resubscribe_all (lines 515-525): re-issues client.subscribe for every
exact entry with its stored qos, then for every wildcard entry with the
literal qos 1 (the registered qos of a wildcard subscription is not
stored in wildcard_callbacks). -/
def resubscribe_all (c : Client) : Client :=
  let c1 := c.subscriptions.foldl
    (fun acc ts =>
      { acc with subscribe_wire := acc.subscribe_wire ++ [(ts.1, ts.2.qos)] }) c
  c1.wildcard_callbacks.foldl
    (fun acc tc =>
      { acc with subscribe_wire := acc.subscribe_wire ++ [(tc.1, 1)] }) c1

/-- _on_connect (lines 266-296): on rc == 0 sets connected/state under the
lock, replays the subscriptions and starts the queue worker; any other rc
clears connected, enters ERROR and bumps the error counter. -/
def on_connect (c : Client) (rc : Nat) : Client :=
  if rc = 0 then
    let c1 := { c with connected := true, state := .CONNECTED }
    start_queue_processor (resubscribe_all c1)
  else
    { c with connected := false, state := .ERROR,
             stats := { c.stats with errors := c.stats.errors + 1 } }

/-- _on_disconnect (lines 298-315): clears connected, moves to
DISCONNECTED on a graceful rc == 0 and to RECONNECTING otherwise, then
stops the queue worker.  The subsequent _handle_reconnect call on an
unexpected drop is modelled separately by handle_reconnect. -/
def on_disconnect (c : Client) (rc : Nat) : Client :=
  let c1 :=
    if rc = 0 then { c with connected := false, state := .DISCONNECTED }
    else { c with connected := false, state := .RECONNECTING }
  stop_queue_processor c1

/-- Outcome of the blocking part of connect (lines 191-232): the
client.connect call raising, the 10 s wait loop expiring without
_on_connect having fired, or _on_connect having fired with a given rc. -/
inductive ConnectOutcome where
  | raisesEarly
  | timeoutNoAck
  | ack (rc : Nat)
deriving DecidableEq

/-- connect (lines 191-232): returns True immediately when already
connected; otherwise enters CONNECTING, starts the transport, and waits;
the boolean result is the final value of self.connected.  An exception
from client.connect enters ERROR and bumps the error counter. -/
def connect (c : Client) (out : ConnectOutcome) : Client × Bool :=
  if c.connected then (c, true)
  else
    let c1 := { c with state := .CONNECTING }
    match out with
    | .raisesEarly =>
      ({ c1 with state := .ERROR,
                 stats := { c1.stats with errors := c1.stats.errors + 1 } }, false)
    | .timeoutNoAck => (c1, false)
    | .ack rc =>
      let c2 := on_connect c1 rc
      (c2, c2.connected)

/-- is_connected (lines 622-624). -/
def is_connected (c : Client) : Bool := c.connected

/-- get_state (lines 626-628). -/
def get_state (c : Client) : ConnectionState := c.state

/-- The delay sequence slept by the while-loop of _handle_reconnect (lines
596-616).  Each list entry is the outcome of one iteration: true means
client.reconnect() raised (the except clause continues with the SAME
delay), false means it returned normally (the delay is then doubled and
capped at max_reconnect_delay).  The returned list holds the delay slept
at each iteration. -/
def reconnectDelays (cfg : MQTTConfig) : List Bool → Nat → List Nat
  | [], _ => []
  | raised :: rest, delay =>
    delay :: reconnectDelays cfg rest
      (if raised then delay else min (delay * 2) cfg.max_reconnect_delay)

/-- _handle_reconnect (lines 596-616): increments reconnect_count ONCE on
entry, then loops; the delays slept are determined by the per-iteration
outcomes. -/
def handle_reconnect (c : Client) (outcomes : List Bool) : Client × List Nat :=
  let c1 := { c with
    stats := { c.stats with reconnect_count := c.stats.reconnect_count + 1 } }
  (c1, reconnectDelays c.config outcomes c.config.reconnect_delay)

/-- One user-callback call inside its try/except in _on_message: the call
is made (recorded on the invoked trace); when the callback raises
(cbRaises oracle) the except clause logs and swallows the exception. -/
def invoke_callback (cbRaises : Nat → Bool) (c : Client) (cb : Nat)
    (errMsg : String) : Client :=
  let c1 := { c with invoked := c.invoked ++ [cb] }
  if cbRaises cb then { c1 with log := c1.log ++ [errMsg] } else c1

/-- The wildcard dispatch loop body of _on_message (lines 342-348): each
matching entry is called in its own try/except.  A wildcard entry whose
stored callback is None raises TypeError when called (the wildcard path,
unlike the exact path, has no None guard); that exception is caught and
logged like any other callback error. -/
def dispatch_wildcard (cbRaises : Nat → Bool) (topic : String)
    (c : Client) (entry : String × Option Nat) : Client :=
  if topic_matches topic entry.1 then
    match entry.2 with
    | some cb =>
      invoke_callback cbRaises c cb ("Wildcard callback error for " ++ entry.1)
    | none => { c with log := c.log ++ ["Wildcard callback error for " ++ entry.1] }
  else c

/-- _on_message (lines 317-352): bumps messages_received, decodes the
payload (json.loads with fallback to the raw text — control flow is
unaffected, so the payload is passed through), dispatches to the exact
subscription for the topic if it has a callback, then to every matching
wildcard entry.  Every callback call sits in its own try/except. -/
def on_message (cbRaises : Nat → Bool) (c : Client) (topic payload : String) :
    Client :=
  let c1 := { c with
    stats := { c.stats with messages_received := c.stats.messages_received + 1 } }
  let c2 :=
    match c1.subscriptions.find? (fun ts => ts.1 == topic) with
    | some ts =>
      match ts.2.callback with
      | some cb => invoke_callback cbRaises c1 cb ("Callback error for " ++ topic)
      | none => c1
    | none => c1
  c1.wildcard_callbacks.foldl (dispatch_wildcard cbRaises topic) c2

/-- The MQTTConfig dataclass defaults. -/
def defaultConfig : MQTTConfig := {}

def m1 : QueuedMessage := ⟨"t1", "p1", 1, false, 0⟩

def m2 : QueuedMessage := ⟨"t2", "p2", 1, false, 0⟩

def m3 : QueuedMessage := ⟨"t3", "p3", 1, false, 0⟩

/-- A connected client whose outbound queue holds m1, m2, m3 in enqueue
order, with the worker running. -/
def queuedClient : Client :=
  { config := defaultConfig, state := .CONNECTED, connected := true,
    message_queue := [m1, m2, m3], queue_running := true }

/-- A disconnected client configured with queue capacity 2 (the C3
scenario). -/
def smallQueueClient : Client := { config := { queue_size := 2 } }

def c3_step1 : Client × Bool := publish smallQueueClient "t1" "p1" 1 false 0 true

def c3_step2 : Client × Bool := publish c3_step1.1 "t2" "p2" 1 false 0 true

def c3_step3 : Client × Bool := publish c3_step2.1 "t3" "p3" 1 false 0 true

/-- The callbacks the wildcard scan invokes for a topic over the given
entries: the stored callback of every matching entry that is not None. -/
def wildcardTargets (topic : String) (entries : List (String × Option Nat)) :
    List Nat :=
  entries.filterMap (fun e => if topic_matches topic e.1 then e.2 else none)

/-- The callback the exact-match branch of _on_message invokes (at most
one; a None callback is guarded by "if callback:"). -/
def exactTarget (c : Client) (topic : String) : List Nat :=
  match c.subscriptions.find? (fun ts => ts.1 == topic) with
  | some ts =>
    match ts.2.callback with
    | some cb => [cb]
    | none => []
  | none => []

/-- C5 fixture: while disconnected, first a wildcard subscription with
qos 0 and callback 7, then an exact subscription with qos 2 and
callback 8. -/
def c5_client : Client :=
  (subscribe (subscribe { config := defaultConfig } "w/+" 0 (some 7) true).1
    "e/x" 2 (some 8) true).1

def c6_client : Client := { config := defaultConfig }

/-- C7 fixture: two wildcard subscriptions on the same pattern with
callbacks 1 and 2; callback 1 raises. -/
def c7_client : Client :=
  { config := defaultConfig,
    wildcard_callbacks := [("a/+", some 1), ("a/+", some 2)] }

def c8_client : Client :=
  { config := defaultConfig, state := .CONNECTED, connected := true,
    queue_running := true }

/-- The C9 invariant: whenever the connected flag is True the state field
is CONNECTED. -/
def ConnInv (c : Client) : Prop := c.connected = true → c.state = .CONNECTED

/-- C9 witness: the invariant facts applied to a freshly constructed
(disconnected) client, discharging the invariant hypothesis there. -/
def freshClient : Client := { config := defaultConfig }

/-- n successive subscribe calls with the same wildcard pattern and
callback. -/
def subscribeN (c : Client) (topic : String) (qos : Nat) (cb : Option Nat) :
    Nat → Client
  | 0 => c
  | n + 1 => (subscribe (subscribeN c topic qos cb n) topic qos cb true).1

/-! ## Theorems -/

theorem matchLoop_nil (ts : List String) : matchLoop [] ts = ts.isEmpty := by
  rw [matchLoop.eq_def]

theorem matchLoop_cons (p : String) (ps ts : List String) :
    matchLoop (p :: ps) ts =
      if p = "#" then true
      else
        match ts with
        | [] => false
        | t :: ts2 => if p ≠ "+" ∧ p ≠ t then false else matchLoop ps ts2 := by
  rw [matchLoop.eq_def]

theorem matchesSpec_nil (ts : List String) :
    matchesSpec ts [] = ts.isEmpty := by
  rw [matchesSpec.eq_def]

theorem matchesSpec_cons (p : String) (ps ts : List String) :
    matchesSpec ts (p :: ps) =
      if p = "#" then ps.isEmpty
      else
        match ts with
        | [] => false
        | t :: ts2 => if p = "+" ∨ p = t then matchesSpec ts2 ps else false := by
  rw [matchesSpec.eq_def]

/-- A pattern with `#` in a non-final level matches no topic under the
level-by-level semantics. -/
theorem matchesSpec_sharp_nonfinal (ps : List String)
    (h : "#" ∈ ps.dropLast) : ∀ ts, matchesSpec ts ps = false := by
  induction ps with
  | nil => simp at h
  | cons p ps ih =>
    intro ts
    cases ps with
    | nil => simp at h
    | cons q qs =>
      rw [List.dropLast_cons₂, List.mem_cons] at h
      rcases h with h | h
      · rw [matchesSpec_cons, if_pos h.symm]
        rfl
      · by_cases hp : p = "#"
        · rw [matchesSpec_cons, if_pos hp]
          rfl
        · rw [matchesSpec_cons, if_neg hp]
          cases ts with
          | nil => rfl
          | cons t ts2 =>
            by_cases hc : p = "+" ∨ p = t
            · simp only [hc, if_true]
              exact ih h ts2
            · simp only [hc, if_false]

/-- On a pattern without a non-final `#`, the loop of _topic_matches
computes exactly the level-by-level semantics. -/
theorem matchLoop_eq_spec (ps : List String) (h : "#" ∉ ps.dropLast) :
    ∀ ts, matchLoop ps ts = matchesSpec ts ps := by
  induction ps with
  | nil =>
    intro ts
    rw [matchLoop_nil, matchesSpec_nil]
  | cons p ps ih =>
    intro ts
    by_cases hp : p = "#"
    · cases ps with
      | nil =>
        rw [matchLoop_cons, if_pos hp, matchesSpec_cons, if_pos hp]
        rfl
      | cons q qs =>
        exact absurd (by rw [List.dropLast_cons₂]; exact hp ▸ List.mem_cons_self _ _) h
    · have h2 : "#" ∉ ps.dropLast := by
        intro hmem
        apply h
        cases ps with
        | nil => simp at hmem
        | cons q qs =>
          rw [List.dropLast_cons₂]
          exact List.mem_cons_of_mem _ hmem
      rw [matchLoop_cons, if_neg hp, matchesSpec_cons, if_neg hp]
      cases ts with
      | nil => rfl
      | cons t ts2 =>
        by_cases hc : p = "+" ∨ p = t
        · have hne : ¬(p ≠ "+" ∧ p ≠ t) := by
            rcases hc with hc | hc <;> simp [hc]
          simp only [hne, if_false, hc, if_true]
          exact ih h2 ts2
        · have hne : p ≠ "+" ∧ p ≠ t := by
            constructor <;> intro he <;> exact hc (by simp [he])
          show (if p ≠ "+" ∧ p ≠ t then false else matchLoop ps ts2)
              = (if p = "+" ∨ p = t then matchesSpec ts2 ps else false)
          rw [if_pos hne, if_neg hc]

/-- The source matcher (up-front non-final-`#` test plus loop) agrees with
the level-by-level semantics on every pair of level lists. -/
theorem matchLevels_eq_spec (ps ts : List String) :
    (if "#" ∈ ps.dropLast then false else matchLoop ps ts)
      = matchesSpec ts ps := by
  by_cases h : "#" ∈ ps.dropLast
  · rw [if_pos h, matchesSpec_sharp_nonfinal ps h ts]
  · rw [if_neg h, matchLoop_eq_spec ps h ts]

/-- C1: _topic_matches is a pure function agreeing with the level-by-level
wildcard semantics (literal levels byte-equal, `+` consumes exactly one
level, a final `#` consumes the rest including zero levels, a non-final
`#` matches nothing and merely returns false), and the five examples from
the spec evaluate as stated. -/
theorem C1_topic_matches_correct :
    (∀ topic pattern : String,
      topic_matches topic pattern
        = matchesSpec (splitLevels topic) (splitLevels pattern))
    ∧ topic_matches "a/b/c" "a/+/c" = true
    ∧ topic_matches "a/b/c" "a/+" = false
    ∧ topic_matches "a/b/c" "a/#" = true
    ∧ topic_matches "a/b" "a/#" = true
    ∧ topic_matches "a" "#" = true := by
  refine ⟨fun topic pattern => ?_, ?_, ?_, ?_, ?_, ?_⟩
  · simpa [topic_matches] using
      matchLevels_eq_spec (splitLevels pattern) (splitLevels topic)
  all_goals decide

/-- C2 counterexample: messages m1, m2, m3 queued in that order on a
connected client; m1's first send attempt fails, every later attempt
succeeds.  _process_queue re-inserts the failed message with Queue.put,
which appends at the BACK, so the transport sees m2, m3, m1 — not the
enqueue order m1, m2, m3 that the claim asserts. -/
theorem C2_counterexample :
    (process_run queuedClient [(1, false), (1, true), (1, true), (1, true)]).wire
        = [("t2", "p2", 1, false), ("t3", "p3", 1, false), ("t1", "p1", 1, false)]
    ∧ (process_run queuedClient [(1, false), (1, true), (1, true), (1, true)]).wire
        ≠ [("t1", "p1", 1, false), ("t2", "p2", 1, false), ("t3", "p3", 1, false)] := by
  constructor
  · rfl
  · decide

/-- C2 amended: when the send of the oldest fresh message fails (transport
rejects or the client is disconnected), the worker re-inserts it at the
BACK of the queue and sends nothing in that iteration, so messages
enqueued later overtake it; in the [m1, m2, m3] scenario with m1 failing
once, all three messages are still sent exactly once, but in the order
m2, m3, m1. -/
theorem C2_requeue_at_back :
    (∀ (c : Client) (msg : QueuedMessage) (rest : List QueuedMessage)
        (now : Nat) (sendOk : Bool),
      c.message_queue = msg :: rest →
      now - msg.timestamp ≤ c.config.message_timeout →
      (c.connected = false ∨ sendOk = false) →
      (process_iteration c now sendOk).message_queue = rest ++ [msg]
      ∧ (process_iteration c now sendOk).wire = c.wire)
    ∧ (process_run queuedClient
        [(1, false), (1, true), (1, true), (1, true)]).message_queue = []
    ∧ (process_run queuedClient
        [(1, false), (1, true), (1, true), (1, true)]).stats.messages_sent = 3 := by
  refine ⟨?_, by decide, by decide⟩
  intro c msg rest now sendOk hq hfresh hfail
  have hage : ¬(now - msg.timestamp > c.config.message_timeout) :=
    Nat.not_lt.mpr hfresh
  cases hc : c.connected with
  | false => simp [process_iteration, hq, hage, hc]
  | true =>
    have hs : sendOk = false := by
      rcases hfail with h | h
      · rw [hc] at h; cases h
      · exact h
    simp [process_iteration, hq, hage, hc, hs]

/-- C2 amended witness: the general re-insertion fact applied to the
concrete connected client with a failing send. -/
theorem C2_requeue_at_back_witness :
    (process_iteration queuedClient 1 false).message_queue = [m2, m3, m1]
    ∧ (process_iteration queuedClient 1 false).wire = queuedClient.wire :=
  C2_requeue_at_back.1 queuedClient m1 [m2, m3] 1 false (by decide) (by decide)
    (Or.inr rfl)

/-- C4 counterexample: a message enqueued at T = 0 with message_timeout
D = 30 and dequeued at now = 30 = T + D is SENT (the code drops only when
age is strictly greater than D, and the claim says "greater than or equal
to" is never sent); moreover when a message IS dropped (now = 31) no
statistic changes — nothing counts dropped messages, the code only
logs. -/
theorem C4_counterexample :
    (process_iteration { queuedClient with message_queue := [m1] } 30 true).wire
        = [("t1", "p1", 1, false)]
    ∧ (process_iteration { queuedClient with message_queue := [m1] } 31 true).wire
        = []
    ∧ (process_iteration { queuedClient with message_queue := [m1] } 31 true).stats
        = queuedClient.stats := by
  refine ⟨rfl, rfl, rfl⟩

/-- C4 amended: a queued message whose age at dequeue time STRICTLY
exceeds message_timeout is dropped: it is removed from the queue, nothing
is sent for it, it is never retried, and the only effect is a log line —
no statistic is incremented.  At age exactly equal to message_timeout the
message is still sent. -/
theorem C4_expired_messages_dropped (c : Client) (msg : QueuedMessage)
    (rest : List QueuedMessage) (now : Nat) (sendOk : Bool)
    (hq : c.message_queue = msg :: rest)
    (hold : now - msg.timestamp > c.config.message_timeout) :
    (process_iteration c now sendOk).message_queue = rest
    ∧ (process_iteration c now sendOk).wire = c.wire
    ∧ (process_iteration c now sendOk).stats = c.stats
    ∧ (process_iteration c now sendOk).log = c.log ++ ["Dropping old message"] := by
  simp [process_iteration, hq, hold]

/-- C4 amended witness: the drop fact at a concrete expired message. -/
theorem C4_expired_messages_dropped_witness :
    (process_iteration { queuedClient with message_queue := [m1] } 31 true).message_queue = []
    ∧ (process_iteration { queuedClient with message_queue := [m1] } 31 true).wire
        = queuedClient.wire
    ∧ (process_iteration { queuedClient with message_queue := [m1] } 31 true).stats
        = queuedClient.stats
    ∧ (process_iteration { queuedClient with message_queue := [m1] } 31 true).log
        = queuedClient.log ++ ["Dropping old message"] :=
  C4_expired_messages_dropped { queuedClient with message_queue := [m1] } m1 [] 31 true
    rfl (by decide)

/-- C3 counterexample: queue capacity 2, three publishes while
disconnected.  messages_queued ends at 2 as the claim says, but the third
call does NOT surface a QueueFull error: queue.Full is caught inside
_queue_message and only logged, publish returns the same False as the two
successful queueings, no error statistic changes, and the third message is
silently gone (absent from the queue). -/
theorem C3_counterexample :
    c3_step3.2 = false
    ∧ c3_step1.2 = false
    ∧ c3_step3.1.stats.messages_queued = 2
    ∧ c3_step3.1.stats.errors = 0
    ∧ c3_step3.1.message_queue
        = [⟨"t1", "p1", 1, false, 0⟩, ⟨"t2", "p2", 1, false, 0⟩]
    ∧ c3_step3.1.log
        = ["Not connected, queueing message", "Message queued: t1",
           "Not connected, queueing message", "Message queued: t2",
           "Not connected, queueing message", "Failed to queue message"] := by
  refine ⟨rfl, rfl, rfl, rfl, rfl, rfl⟩

/-- C3 amended: publishing while disconnected never sends immediately and
always returns False.  When the queue has room the message is appended and
messages_queued is incremented; when the queue is full the message is
dropped with only a log line — the caller receives the same False as on a
successful queueing (no QueueFull indication) and no statistic changes.
With capacity 2 and three publishes, messages_queued equals 2. -/
theorem C3_publish_disconnected (c : Client) (topic payload : String)
    (qos : Nat) (retain : Bool) (now : Nat) (sendOk : Bool)
    (hdisc : c.connected = false) :
    (publish c topic payload qos retain now sendOk).2 = false
    ∧ (publish c topic payload qos retain now sendOk).1.wire = c.wire
    ∧ ((c.config.queue_size = 0 ∨ c.message_queue.length < c.config.queue_size) →
        (publish c topic payload qos retain now sendOk).1.message_queue
            = c.message_queue ++ [⟨topic, payload, qos, retain, now⟩]
        ∧ (publish c topic payload qos retain now sendOk).1.stats.messages_queued
            = c.stats.messages_queued + 1)
    ∧ (¬(c.config.queue_size = 0 ∨ c.message_queue.length < c.config.queue_size) →
        (publish c topic payload qos retain now sendOk).1.message_queue
            = c.message_queue
        ∧ (publish c topic payload qos retain now sendOk).1.stats = c.stats
        ∧ (publish c topic payload qos retain now sendOk).1.log
            = c.log ++ ["Not connected, queueing message",
                        "Failed to queue message"]) := by
  by_cases hroom : c.config.queue_size = 0 ∨ c.message_queue.length < c.config.queue_size
  · refine ⟨?_, ?_, fun _ => ⟨?_, ?_⟩, fun hn => absurd hroom hn⟩ <;>
      simp [publish, queue_message, hdisc, hroom]
  · refine ⟨?_, ?_, fun hr => absurd hr hroom, fun _ => ⟨?_, ?_, ?_⟩⟩ <;>
      simp [publish, queue_message, hdisc, hroom]

/-- C3 amended witness: the disconnected-publish fact at the concrete
capacity-2 client, discharging the disconnection hypothesis. -/
theorem C3_publish_disconnected_witness :
    (publish smallQueueClient "t1" "p1" 1 false 0 true).2 = false
    ∧ (publish smallQueueClient "t1" "p1" 1 false 0 true).1.wire
        = smallQueueClient.wire :=
  let h := C3_publish_disconnected smallQueueClient "t1" "p1" 1 false 0 true rfl
  ⟨h.1, h.2.1⟩

theorem invoke_callback_fields (cbR : Nat → Bool) (c : Client) (cb : Nat)
    (msg : String) :
    (invoke_callback cbR c cb msg).invoked = c.invoked ++ [cb]
    ∧ (invoke_callback cbR c cb msg).stats = c.stats := by
  by_cases h : cbR cb <;> simp [invoke_callback, h]

theorem dispatch_wildcard_fields (cbR : Nat → Bool) (topic : String)
    (c : Client) (e : String × Option Nat) :
    (dispatch_wildcard cbR topic c e).invoked
        = c.invoked ++ (if topic_matches topic e.1 then e.2 else none).toList
    ∧ (dispatch_wildcard cbR topic c e).stats = c.stats := by
  obtain ⟨pat, ocb⟩ := e
  cases hm : topic_matches topic pat with
  | false => simp [dispatch_wildcard, hm]
  | true =>
    cases ocb with
    | none => simp [dispatch_wildcard, hm]
    | some cb =>
      have h := invoke_callback_fields cbR c cb
        ("Wildcard callback error for " ++ pat)
      simp [dispatch_wildcard, hm, h.1, h.2]

theorem wildcardTargets_cons (topic : String) (e : String × Option Nat)
    (l : List (String × Option Nat)) :
    wildcardTargets topic (e :: l)
      = (if topic_matches topic e.1 then e.2 else none).toList
          ++ wildcardTargets topic l := by
  unfold wildcardTargets
  rw [List.filterMap_cons]
  cases h : (if topic_matches topic e.1 then e.2 else none) <;> simp [h]

theorem foldl_dispatch_fields (cbR : Nat → Bool) (topic : String) :
    ∀ (l : List (String × Option Nat)) (c : Client),
      ((l.foldl (dispatch_wildcard cbR topic) c).invoked
          = c.invoked ++ wildcardTargets topic l)
      ∧ (l.foldl (dispatch_wildcard cbR topic) c).stats = c.stats := by
  intro l
  induction l with
  | nil => intro c; simp [wildcardTargets]
  | cons e l ih =>
    intro c
    have hd := dispatch_wildcard_fields cbR topic c e
    have hi := ih (dispatch_wildcard cbR topic c e)
    rw [List.foldl_cons] at *
    refine ⟨?_, hi.2.trans hd.2⟩
    rw [hi.1, hd.1, wildcardTargets_cons, List.append_assoc]

/-- _on_message invokes exactly the exact-match callback (when present)
followed by every matching wildcard callback, in registration order, and
its only statistics effect is messages_received += 1 — regardless of
which callbacks raise. -/
theorem on_message_invoked_stats (cbR : Nat → Bool) (c : Client)
    (topic payload : String) :
    (on_message cbR c topic payload).invoked
        = c.invoked ++ (exactTarget c topic
            ++ wildcardTargets topic c.wildcard_callbacks)
    ∧ (on_message cbR c topic payload).stats
        = { c.stats with messages_received := c.stats.messages_received + 1 } := by
  unfold on_message
  cases hf : c.subscriptions.find? (fun ts => ts.1 == topic) with
  | none =>
    have h := foldl_dispatch_fields cbR topic c.wildcard_callbacks
    simp only [hf]
    refine ⟨?_, ?_⟩
    · rw [(h _).1]
      simp [exactTarget, hf]
    · rw [(h _).2]
  | some ts =>
    cases hcb : ts.2.callback with
    | none =>
      have h := foldl_dispatch_fields cbR topic c.wildcard_callbacks
      simp only [hf, hcb]
      refine ⟨?_, ?_⟩
      · rw [(h _).1]
        simp [exactTarget, hf, hcb]
      · rw [(h _).2]
    | some cb =>
      have h := foldl_dispatch_fields cbR topic c.wildcard_callbacks
      have hi := invoke_callback_fields cbR
        { c with stats :=
            { c.stats with messages_received := c.stats.messages_received + 1 } }
        cb ("Callback error for " ++ topic)
      simp only [hf, hcb]
      refine ⟨?_, ?_⟩
      · rw [(h _).1, hi.1]
        simp [exactTarget, hf, hcb, List.append_assoc]
      · rw [(h _).2, hi.2]

/-- C5 counterexample: on reconnect (_on_connect with rc == 0) the replay
issues the exact subscription first even though the wildcard one was
registered first (insertion order across the two stores is not
preserved), and the wildcard subscription is re-issued with qos 1, not
its registered qos 0. -/
theorem C5_counterexample :
    c5_client.wildcard_callbacks = [("w/+", some 7)]
    ∧ c5_client.subscriptions = [("e/x", ⟨"e/x", 2, some 8⟩)]
    ∧ (on_connect c5_client 0).subscribe_wire = [("e/x", 2), ("w/+", 1)]
    ∧ ("w/+", 0) ∉ (on_connect c5_client 0).subscribe_wire := by
  refine ⟨rfl, rfl, rfl, by decide⟩

/-- Unrolling one of the two replay loops of _resubscribe_all: a fold
that issues one subscribe request per element appends the mapped request
list to the wire. -/
theorem foldl_subscribe_wire {α : Type} (f : α → String × Nat) :
    ∀ (l : List α) (c : Client),
      (l.foldl
        (fun acc x =>
          { acc with subscribe_wire := acc.subscribe_wire ++ [f x] }) c)
        = { c with subscribe_wire := c.subscribe_wire ++ l.map f } := by
  intro l
  induction l with
  | nil => intro c; simp
  | cons x l ih =>
    intro c
    rw [List.foldl_cons, ih]
    simp [List.append_assoc]

/-- _resubscribe_all only appends to the subscribe wire: the exact
entries (with stored qos, dict order) followed by the wildcard entries
(qos 1, list order). -/
theorem resubscribe_all_eq (c : Client) :
    resubscribe_all c
      = { c with subscribe_wire := c.subscribe_wire
            ++ (c.subscriptions.map (fun ts => (ts.1, ts.2.qos))
                ++ c.wildcard_callbacks.map (fun tc => (tc.1, 1))) } := by
  unfold resubscribe_all
  simp only [foldl_subscribe_wire]
  simp [List.append_assoc]

/-- _on_connect with rc == 0 in closed form. -/
theorem on_connect_zero_eq (c : Client) :
    on_connect c 0
      = { c with
          connected := true,
          state := .CONNECTED,
          queue_running := true,
          subscribe_wire := c.subscribe_wire
            ++ (c.subscriptions.map (fun ts => (ts.1, ts.2.qos))
                ++ c.wildcard_callbacks.map (fun tc => (tc.1, 1))) } := by
  show start_queue_processor (resubscribe_all
      { c with connected := true, state := .CONNECTED }) = _
  rw [resubscribe_all_eq]
  rfl

/-- C5 amended: after a successful _on_connect (rc == 0) every stored
subscription is re-issued exactly once — the exact-topic entries first,
in their insertion order and with their registered qos, then the wildcard
entries in their insertion order but always with qos 1 (their registered
qos is not stored) — the stores themselves are re-sent, not re-created,
and inbound dispatch afterwards invokes exactly the same callbacks as
before. -/
theorem C5_resubscribe_all_replay (c : Client) :
    (on_connect c 0).subscriptions = c.subscriptions
    ∧ (on_connect c 0).wildcard_callbacks = c.wildcard_callbacks
    ∧ (on_connect c 0).subscribe_wire
        = c.subscribe_wire
          ++ (c.subscriptions.map (fun ts => (ts.1, ts.2.qos))
              ++ c.wildcard_callbacks.map (fun tc => (tc.1, 1)))
    ∧ (∀ (cbR : Nat → Bool) (topic payload : String),
        (on_message cbR (on_connect c 0) topic payload).invoked
          = (on_message cbR c topic payload).invoked) := by
  rw [on_connect_zero_eq]
  refine ⟨rfl, rfl, rfl, fun cbR topic payload => ?_⟩
  rw [(on_message_invoked_stats cbR _ topic payload).1,
    (on_message_invoked_stats cbR c topic payload).1]
  rfl

/-- C6 counterexample: _handle_reconnect increments reconnect_count once
on ENTRY, not once per attempt.  With three loop iterations (two raising
attempts, then one that returns normally) the counter has grown by 1, not
3; moreover the delay is NOT doubled after a raising attempt (the except
clause continues with the same delay), so the slept delays are 5, 5, 5
rather than the 5, 10, 20 the claim's doubling-on-failure predicts. -/
theorem C6_counterexample :
    (handle_reconnect c6_client [true, true, false]).1.stats.reconnect_count = 1
    ∧ (1 : Nat) ≠ 3
    ∧ (handle_reconnect c6_client [true, true, false]).2 = [5, 5, 5]
    ∧ (handle_reconnect c6_client [true, true, false]).2 ≠ [5, 10, 20] := by
  refine ⟨rfl, by decide, rfl, by decide⟩

theorem reconnectDelays_head (cfg : MQTTConfig) (outcomes : List Bool)
    (d : Nat) :
    (reconnectDelays cfg outcomes d).head?
      = if outcomes.isEmpty then none else some d := by
  cases outcomes <;> rfl

theorem reconnectDelays_mem_le (cfg : MQTTConfig) :
    ∀ (outcomes : List Bool) (d : Nat), d ≤ cfg.max_reconnect_delay →
      ∀ x ∈ reconnectDelays cfg outcomes d, x ≤ cfg.max_reconnect_delay := by
  intro outcomes
  induction outcomes with
  | nil =>
    intro d _ x hx
    simp [reconnectDelays] at hx
  | cons r rest ih =>
    intro d hd x hx
    rw [show reconnectDelays cfg (r :: rest) d
        = d :: reconnectDelays cfg rest
            (if r then d else min (d * 2) cfg.max_reconnect_delay) from rfl,
      List.mem_cons] at hx
    rcases hx with hx | hx
    · exact hx ▸ hd
    · refine ih _ ?_ x hx
      cases r
      · simpa using Nat.min_le_right (d * 2) cfg.max_reconnect_delay
      · simpa using hd

theorem reconnectDelays_chain (cfg : MQTTConfig) :
    ∀ (outcomes : List Bool) (d : Nat), d ≤ cfg.max_reconnect_delay →
      List.Chain' (· ≤ ·) (reconnectDelays cfg outcomes d) := by
  intro outcomes
  induction outcomes with
  | nil =>
    intro d _
    simp [reconnectDelays]
  | cons r rest ih =>
    intro d hd
    rw [show reconnectDelays cfg (r :: rest) d
        = d :: reconnectDelays cfg rest
            (if r then d else min (d * 2) cfg.max_reconnect_delay) from rfl]
    have hnext_ge : d ≤ (if r then d else min (d * 2) cfg.max_reconnect_delay) := by
      cases r
      · simpa using Nat.le_min.mpr ⟨by omega, hd⟩
      · simp
    have hnext_le :
        (if r then d else min (d * 2) cfg.max_reconnect_delay)
          ≤ cfg.max_reconnect_delay := by
      cases r
      · simpa using Nat.min_le_right (d * 2) cfg.max_reconnect_delay
      · simpa using hd
    rw [List.chain'_cons']
    refine ⟨?_, ih _ hnext_le⟩
    intro y hy
    rw [reconnectDelays_head] at hy
    cases hrest : rest.isEmpty
    · rw [hrest] at hy
      simp at hy
      subst hy
      exact hnext_ge
    · rw [hrest] at hy
      simp at hy

/-- C6 amended: each invocation of _handle_reconnect (one per unexpected
disconnect that enters the backoff loop) increments reconnect_count by
exactly one, however many attempts the loop then makes.  Provided the
initial reconnect_delay does not exceed max_reconnect_delay, the slept
delays form a non-decreasing sequence starting at reconnect_delay and
capped at max_reconnect_delay; the delay stays the same after an attempt
that raises and doubles (capped) after an attempt that returns
normally. -/
theorem C6_backoff (c : Client) (outcomes : List Bool)
    (hinit : c.config.reconnect_delay ≤ c.config.max_reconnect_delay) :
    (handle_reconnect c outcomes).1.stats.reconnect_count
        = c.stats.reconnect_count + 1
    ∧ List.Chain' (· ≤ ·) (handle_reconnect c outcomes).2
    ∧ (∀ d ∈ (handle_reconnect c outcomes).2, d ≤ c.config.max_reconnect_delay)
    ∧ (handle_reconnect c outcomes).2.head?
        = if outcomes.isEmpty then none else some c.config.reconnect_delay := by
  refine ⟨rfl, ?_, ?_, ?_⟩
  · exact reconnectDelays_chain c.config outcomes _ hinit
  · exact reconnectDelays_mem_le c.config outcomes _ hinit
  · exact reconnectDelays_head c.config outcomes _

/-- C6 amended witness: the backoff facts at a concrete two-iteration
run, discharging the delay-ordering hypothesis. -/
theorem C6_backoff_witness :
    c6_client.config.reconnect_delay ≤ c6_client.config.max_reconnect_delay
    ∧ ((handle_reconnect c6_client [true, false]).1.stats.reconnect_count
          = c6_client.stats.reconnect_count + 1
      ∧ List.Chain' (· ≤ ·) (handle_reconnect c6_client [true, false]).2
      ∧ (∀ d ∈ (handle_reconnect c6_client [true, false]).2,
          d ≤ c6_client.config.max_reconnect_delay)
      ∧ (handle_reconnect c6_client [true, false]).2.head?
          = if ([true, false] : List Bool).isEmpty then none
            else some c6_client.config.reconnect_delay) :=
  ⟨by decide, C6_backoff c6_client [true, false] (by decide)⟩

/-- C7 counterexample: callback 1 raises while handling a message on
a/b; callback 2 still runs and nothing propagates, but the failure is
only LOGGED — the errors statistic stays 0, contradicting the claim that
a callback exception is counted as an error. -/
theorem C7_counterexample :
    (on_message (fun n => n == 1) c7_client "a/b" "x").invoked = [1, 2]
    ∧ (on_message (fun n => n == 1) c7_client "a/b" "x").stats.errors = 0
    ∧ "Wildcard callback error for a/+"
        ∈ (on_message (fun n => n == 1) c7_client "a/b" "x").log := by
  refine ⟨rfl, rfl, by decide⟩

/-- C7 amended: an exception raised by a registered callback is caught at
the dispatch boundary and logged; it never prevents the remaining
matching callbacks from running (the invoked sequence — exact-match
callback first, then every matching wildcard callback in registration
order — is independent of which callbacks raise) and never propagates
into the receive path; but the errors statistic is NOT incremented for
callback failures — the only statistics effect of _on_message is
messages_received += 1. -/
theorem C7_callback_isolation (cbR : Nat → Bool) (c : Client)
    (topic payload : String) :
    (on_message cbR c topic payload).invoked
        = (on_message (fun _ => false) c topic payload).invoked
    ∧ (on_message cbR c topic payload).invoked
        = c.invoked ++ (exactTarget c topic
            ++ wildcardTargets topic c.wildcard_callbacks)
    ∧ (on_message cbR c topic payload).stats.errors = c.stats.errors
    ∧ (on_message cbR c topic payload).stats.messages_received
        = c.stats.messages_received + 1 := by
  have h1 := on_message_invoked_stats cbR c topic payload
  have h2 := on_message_invoked_stats (fun _ => false) c topic payload
  refine ⟨h1.1.trans h2.1.symm, h1.1, ?_, ?_⟩
  · rw [h1.2]
  · rw [h1.2]

/-- C8 counterexample: when the transport teardown (loop_stop /
client.disconnect) raises, the except clause of disconnect only logs —
the with-lock block that clears connected and state is skipped, so a
connected client remains connected = True, state = CONNECTED after
disconnect() returns. -/
theorem C8_counterexample :
    (disconnect c8_client true).connected = true
    ∧ (disconnect c8_client true).state = .CONNECTED := by
  refine ⟨rfl, rfl⟩

/-- C8 amended: disconnect() never raises from any state and always
stops the queue worker; when the transport teardown does not raise it
leaves connected = False and state = Disconnected, but when the teardown
raises the exception is caught and logged and connected/state are left
unchanged. -/
theorem C8_disconnect_safe (c : Client) (transportRaises : Bool) :
    (disconnect c transportRaises).queue_running = false
    ∧ (transportRaises = false →
        (disconnect c transportRaises).connected = false
        ∧ (disconnect c transportRaises).state = .DISCONNECTED)
    ∧ (transportRaises = true →
        (disconnect c transportRaises).connected = c.connected
        ∧ (disconnect c transportRaises).state = c.state) := by
  cases transportRaises <;> simp [disconnect, stop_queue_processor]

/-- C8 amended witness: the normal-teardown facts at a concrete connected
client. -/
theorem C8_disconnect_safe_witness :
    (disconnect c8_client false).queue_running = false
    ∧ (disconnect c8_client false).connected = false
    ∧ (disconnect c8_client false).state = .DISCONNECTED :=
  let h := C8_disconnect_safe c8_client false
  ⟨h.1, (h.2.1 rfl).1, (h.2.1 rfl).2⟩

theorem on_connect_ConnInv (c : Client) (rc : Nat) :
    ConnInv (on_connect c rc) := by
  by_cases h0 : rc = 0
  · subst h0
    rw [on_connect_zero_eq]
    intro _
    rfl
  · unfold on_connect
    rw [if_neg h0]
    intro hcon
    simp at hcon

/-- C9: every state-mutating operation preserves the invariant that
connected = True implies state = CONNECTED, and consequently
is_connected() can report True only while get_state() reports
CONNECTED. -/
theorem C9_connected_state_invariant (c : Client) (h : ConnInv c) :
    (∀ out, ConnInv (connect c out).1)
    ∧ (∀ transportRaises, ConnInv (disconnect c transportRaises))
    ∧ (∀ rc, ConnInv (on_connect c rc))
    ∧ (∀ rc, ConnInv (on_disconnect c rc))
    ∧ (is_connected c = true → get_state c = .CONNECTED) := by
  refine ⟨?_, ?_, fun rc => on_connect_ConnInv c rc, ?_, h⟩
  · intro out
    cases hc : c.connected
    · cases out with
      | raisesEarly =>
        intro hcon
        simp [connect, hc] at hcon
      | timeoutNoAck =>
        intro hcon
        simp [connect, hc] at hcon
      | ack rc =>
        have hthis := on_connect_ConnInv { c with state := .CONNECTING } rc
        show ConnInv (connect c (.ack rc)).1
        simp only [connect, hc, Bool.false_eq_true, if_false]
        exact hthis
    · show ConnInv (connect c out).1
      simp only [connect, hc, if_true]
      intro _
      exact h hc
  · intro transportRaises
    cases transportRaises
    · intro hcon
      simp [disconnect, stop_queue_processor] at hcon
    · intro hcon
      exact h hcon
  · intro rc hcon
    by_cases h0 : rc = 0 <;>
      simp [on_disconnect, stop_queue_processor, h0] at hcon

theorem C9_connected_state_invariant_witness :
    ConnInv freshClient
    ∧ ((∀ out, ConnInv (connect freshClient out).1)
      ∧ (∀ transportRaises, ConnInv (disconnect freshClient transportRaises))
      ∧ (∀ rc, ConnInv (on_connect freshClient rc))
      ∧ (∀ rc, ConnInv (on_disconnect freshClient rc))
      ∧ (is_connected freshClient = true → get_state freshClient = .CONNECTED)) :=
  ⟨fun h => by simp [freshClient] at h,
    C9_connected_state_invariant freshClient (fun h => by simp [freshClient] at h)⟩

theorem subscribe_wildcard_fields (c : Client) (topic : String) (qos : Nat)
    (cb : Option Nat) (tok : Bool) (hw : isWildcard topic = true) :
    ((subscribe c topic qos cb tok).1.wildcard_callbacks
        = c.wildcard_callbacks ++ [(topic, cb)])
    ∧ (subscribe c topic qos cb tok).1.subscriptions = c.subscriptions
    ∧ (subscribe c topic qos cb tok).1.invoked = c.invoked := by
  cases hc : c.connected <;> cases tok <;> simp [subscribe, hw, hc]

theorem subscribeN_fields (c : Client) (topic : String) (qos : Nat)
    (cb : Option Nat) (hw : isWildcard topic = true) :
    ∀ n, ((subscribeN c topic qos cb n).wildcard_callbacks
        = c.wildcard_callbacks ++ List.replicate n (topic, cb))
    ∧ (subscribeN c topic qos cb n).subscriptions = c.subscriptions
    ∧ (subscribeN c topic qos cb n).invoked = c.invoked := by
  intro n
  induction n with
  | zero => simp [subscribeN]
  | succ n ih =>
    have hs := subscribe_wildcard_fields
      (subscribeN c topic qos cb n) topic qos cb true hw
    refine ⟨?_, hs.2.1.trans ih.2.1, hs.2.2.trans ih.2.2⟩
    show (subscribe (subscribeN c topic qos cb n) topic qos cb true).1.wildcard_callbacks = _
    rw [hs.1, ih.1, List.append_assoc, ← List.replicate_succ']

theorem wildcardTargets_replicate (topic p : String) (k : Nat) (n : Nat)
    (hm : topic_matches topic p = true) :
    wildcardTargets topic (List.replicate n (p, some k))
      = List.replicate n k := by
  induction n with
  | zero => rfl
  | succ n ih =>
    rw [List.replicate_succ, wildcardTargets_cons, List.replicate_succ]
    simp [hm, ih]

theorem wildcardTargets_append (topic : String)
    (l1 l2 : List (String × Option Nat)) :
    wildcardTargets topic (l1 ++ l2)
      = wildcardTargets topic l1 ++ wildcardTargets topic l2 := by
  unfold wildcardTargets
  rw [List.filterMap_append]

theorem exactTarget_congr (c c2 : Client) (topic : String)
    (h : c2.subscriptions = c.subscriptions) :
    exactTarget c2 topic = exactTarget c topic := by
  unfold exactTarget
  rw [h]

/-- C10: wildcard subscriptions are appended, never deduplicated — after
n subscribes to the same wildcard pattern the list holds n copies and one
matching inbound message invokes the callback n more times than before;
a single unsubscribe removes ALL wildcard entries with that pattern and,
while disconnected, returns True even for a never-registered pattern. -/
theorem C10_wildcard_not_deduplicated (c : Client) (p : String) (qos : Nat)
    (k : Nat) (n : Nat) (msgTopic payload : String) (cbR : Nat → Bool)
    (hw : isWildcard p = true) (hm : topic_matches msgTopic p = true) :
    (subscribeN c p qos (some k) n).wildcard_callbacks
        = c.wildcard_callbacks ++ List.replicate n (p, some k)
    ∧ ((on_message cbR (subscribeN c p qos (some k) n) msgTopic payload).invoked.count k
        = (on_message cbR c msgTopic payload).invoked.count k + n)
    ∧ (∀ c2 : Client, c2.connected = false →
        (unsubscribe c2 p true).2 = true
        ∧ (unsubscribe c2 p true).1.wildcard_callbacks
            = c2.wildcard_callbacks.filter (fun tc => !(tc.1 == p))) := by
  have hf := subscribeN_fields c p qos (some k) hw n
  refine ⟨hf.1, ?_, ?_⟩
  · rw [(on_message_invoked_stats cbR _ msgTopic payload).1,
      (on_message_invoked_stats cbR c msgTopic payload).1,
      hf.1, hf.2.2, exactTarget_congr c _ msgTopic hf.2.1,
      wildcardTargets_append, wildcardTargets_replicate msgTopic p k n hm]
    simp [List.count_append, List.count_replicate_self]
    omega
  · intro c2 hd
    constructor
    · simp [unsubscribe, hd]
    · simp [unsubscribe, hd]

/-- C10 witness: two subscriptions to a/+ with callback 5; a message on
a/b then invokes callback 5 twice more than before, and unsubscribe on a
disconnected client returns True. -/
theorem C10_wildcard_not_deduplicated_witness :
    (subscribeN freshClient "a/+" 1 (some 5) 2).wildcard_callbacks
        = freshClient.wildcard_callbacks ++ List.replicate 2 ("a/+", some 5)
    ∧ ((on_message (fun _ => false) (subscribeN freshClient "a/+" 1 (some 5) 2)
          "a/b" "pl").invoked.count 5
        = (on_message (fun _ => false) freshClient "a/b" "pl").invoked.count 5 + 2)
    ∧ (unsubscribe freshClient "a/+" true).2 = true :=
  let h := C10_wildcard_not_deduplicated freshClient "a/+" 1 5 2 "a/b" "pl"
    (fun _ => false) (by decide) (by decide)
  ⟨h.1, h.2.1, (h.2.2 freshClient rfl).1⟩

end DTN
